import Mathlib

set_option maxRecDepth 100000

/-!
Shallow embedding of the two Arduino example sketches of the
SparkFun WM8960 Arduino library repository:

* `Example_12_AutomaticLevelControl.ino` (namespace `ALC`): reads a
  potentiometer on pin A0, averages 250 raw readings into a persistent
  accumulator `userInputA0`, maps the result to a 0-15 ALC target level
  and writes it to the codec.

* `Example_08_I2S_Passthrough.ino` (namespace `Passthrough`): configures
  the codec and the ESP32 I2S peripheral at setup, then in `loop()` reads
  up to `bufferLen` bytes from the I2S bus into `sBuffer` and, when the
  read reports `ESP_OK`, writes the received bytes back out unchanged.

The embedding models each sketch as a trace of externally visible actions
(`Action`), plus explicit functional models of the pieces of arithmetic
and buffer handling the claims are about.  Machine integers (`long`,
`int`) are modelled as `Int`; C integer division truncates toward zero,
which is `Int.tdiv`.  The infinite `while (1);` freeze after a failed
handshake is modelled by the terminal action `Action.halt`.
-/

namespace WM8960Examples

/-- ESP32 I2S driver configuration record, mirroring the fields of the
`i2s_config_t` initializer in `i2s_install()` of the passthrough sketch. -/
structure I2SConfig where
  modeMaster : Bool
  modeRx : Bool
  modeTx : Bool
  sampleRate : Nat
  bitsPerSample : Nat
  channelFmtRightLeft : Bool
  commFormatI2sMsb : Bool
  intrAllocFlags : Nat
  dmaBufCount : Nat
  dmaBufLen : Nat
  useApll : Bool
  deriving DecidableEq, Repr

/-- Externally visible actions performed by the sketches.  `codecCall`
records one configuration method invocation on the `WM8960 codec` driver
object (an I2C register write sequence), with its integer arguments.
`halt` models the terminal `while (1);` freeze. -/
inductive Action where
  | serialBegin (baud : Nat)
  | serialPrint (s : String)
  | serialPrintln (s : String)
  | serialPrintlnInt (n : Int)
  | wireBegin
  | codecBegin
  | codecCall (nm : String) (args : List Int)
  | analogRead (pin : Nat) (value : Int)
  | delayMs (ms : Nat)
  | i2sInstall (cfg : I2SConfig)
  | i2sSetPin (bck ws dout din : Nat)
  | i2sStart (port : Nat)
  | i2sRead (port : Nat) (bytesRequested bytesIn : Nat)
  | i2sWrite (port : Nat) (bytesToWrite : Nat)
  | halt
  deriving DecidableEq, Repr

/-- Arduino `map(x, in_min, in_max, out_min, out_max)` from the Arduino
core: `(x - in_min) * (out_max - out_min) / (in_max - in_min) + out_min`
on C `long`, whose division truncates toward zero. -/
def arduinoMap (x inMin inMax outMin outMax : Int) : Int :=
  Int.tdiv ((x - inMin) * (outMax - outMin)) (inMax - inMin) + outMin

/-! Named constants of the WM8960 driver library.  The library header is
not part of the example sources; the numeric values below are taken from
the published SparkFun WM8960 header and the WM8960 datasheet.  No
theorem in this development depends on these values: the claims only
count and order the configuration calls. -/

def WM8960_MIC_BOOST_GAIN_0DB : Int := 0

def WM8960_OUTPUT_MIXER_GAIN_NEG_21DB : Int := 0

def WM8960_PLLPRESCALE_DIV_2 : Int := 1

def WM8960_PLL_MODE_FRACTIONAL : Int := 1

def WM8960_CLKSEL_PLL : Int := 1

def WM8960_SYSCLK_DIV_BY_2 : Int := 2

def WM8960_DCLKDIV_16 : Int := 7

def WM8960_ALC_MODE_STEREO : Int := 3

def WM8960_ALC_TARGET_LEVEL_NEG_6DB : Int := 11

def WM8960_ALC_DECAY_TIME_192MS : Int := 3

def WM8960_ALC_ATTACK_TIME_24MS : Int := 2

def WM8960_ALC_MAX_GAIN_LEVEL_30DB : Int := 7

def WM8960_ALC_MIN_GAIN_LEVEL_NEG_17_25DB : Int := 0

def WM8960_ALC_HOLD_TIME_0MS : Int := 0

def PLLPRESCALE_DIV_2 : Int := WM8960_PLLPRESCALE_DIV_2

def PLL_MODE_FRACTIONAL : Int := WM8960_PLL_MODE_FRACTIONAL

def CLKSEL_PLL : Int := WM8960_CLKSEL_PLL

def SYSCLK_DIV_BY_2 : Int := WM8960_SYSCLK_DIV_BY_2

def DCLKDIV_16 : Int := WM8960_DCLKDIV_16

def WL_16BIT : Int := 0

namespace ALC

/-- One iteration of the accumulation phase of `loop()` in the ALC
sketch: the global `long userInputA0` (value `u`) receives
`userInputA0 += analogRead(A0)` once per reading, then
`userInputA0 /= 250` (C `long` division, truncating toward zero). -/
def loop_iter (u : Int) (readings : List Int) : Int :=
  Int.tdiv (readings.foldl (fun a r => a + r) u) 250

/-- The value `map(userInputA0, 0, 4096, 15, 0)` computed by `loop()`
and passed to `codec.setAlcTarget`. -/
def alcTargetOf (u : Int) : Int :=
  arduinoMap u 0 4096 15 0

/-- Successive values of the accumulator `userInputA0` at the end of each
`loop()` iteration, starting from accumulator value `u` and consuming one
reading list per iteration. -/
def runStates : Int → List (List Int) → List Int
  | _, [] => []
  | u, rs :: iters => loop_iter u rs :: runStates (loop_iter u rs) iters

/-- The successive arguments passed to `codec.setAlcTarget`, one per
`loop()` iteration. -/
def runTargets (u : Int) (iters : List (List Int)) : List Int :=
  (runStates u iters).map alcTargetOf

/-- A reading list is valid for one iteration when it has exactly the 250
samples the `for` loop takes, each in the ESP32 12-bit ADC range 0-4095. -/
def validReadings (rs : List Int) : Prop :=
  rs.length = 250 ∧ ∀ r ∈ rs, 0 ≤ r ∧ r ≤ 4095

instance (rs : List Int) : Decidable (validReadings rs) := by
  unfold validReadings; infer_instance

/-- The ordered list of codec configuration calls issued by
`codec_setup()` of the ALC sketch, in source order.  The float argument
of `setHeadphoneVolumeDB(0.00)` is recorded as the integer 0. -/
def codec_setup : List Action :=
  [ .codecCall "enableVREF" [],
    .codecCall "enableVMID" [],
    .codecCall "enableLMIC" [],
    .codecCall "enableRMIC" [],
    .codecCall "connectLMN1" [],
    .codecCall "connectRMN1" [],
    .codecCall "disableLINMUTE" [],
    .codecCall "disableRINMUTE" [],
    .codecCall "setLMICBOOST" [WM8960_MIC_BOOST_GAIN_0DB],
    .codecCall "setRMICBOOST" [WM8960_MIC_BOOST_GAIN_0DB],
    .codecCall "connectLMIC2B" [],
    .codecCall "connectRMIC2B" [],
    .codecCall "enableAINL" [],
    .codecCall "enableAINR" [],
    .codecCall "disableLB2LO" [],
    .codecCall "disableRB2RO" [],
    .codecCall "enableLD2LO" [],
    .codecCall "enableRD2RO" [],
    .codecCall "setLB2LOVOL" [WM8960_OUTPUT_MIXER_GAIN_NEG_21DB],
    .codecCall "setRB2ROVOL" [WM8960_OUTPUT_MIXER_GAIN_NEG_21DB],
    .codecCall "enableLOMIX" [],
    .codecCall "enableROMIX" [],
    .codecCall "enablePLL" [],
    .codecCall "setPLLPRESCALE" [WM8960_PLLPRESCALE_DIV_2],
    .codecCall "setSMD" [WM8960_PLL_MODE_FRACTIONAL],
    .codecCall "setCLKSEL" [WM8960_CLKSEL_PLL],
    .codecCall "setSYSCLKDIV" [WM8960_SYSCLK_DIV_BY_2],
    .codecCall "setBCLKDIV" [4],
    .codecCall "setDCLKDIV" [WM8960_DCLKDIV_16],
    .codecCall "setPLLN" [7],
    .codecCall "setPLLK" [0x86, 0xC2, 0x26],
    .codecCall "enableMasterMode" [],
    .codecCall "setALRCGPIO" [],
    .codecCall "enableAdcLeft" [],
    .codecCall "enableAdcRight" [],
    .codecCall "enableDacLeft" [],
    .codecCall "enableDacRight" [],
    .codecCall "disableDacMute" [],
    .codecCall "enableLoopBack" [],
    .codecCall "disableDacMute" [],
    .codecCall "enableHeadphones" [],
    .codecCall "enableOUT3MIX" [],
    .codecCall "enablePgaZeroCross" [],
    .codecCall "enableAlc" [WM8960_ALC_MODE_STEREO],
    .codecCall "setAlcTarget" [WM8960_ALC_TARGET_LEVEL_NEG_6DB],
    .codecCall "setAlcDecay" [WM8960_ALC_DECAY_TIME_192MS],
    .codecCall "setAlcAttack" [WM8960_ALC_ATTACK_TIME_24MS],
    .codecCall "setAlcMaxGain" [WM8960_ALC_MAX_GAIN_LEVEL_30DB],
    .codecCall "setAlcMinGain" [WM8960_ALC_MIN_GAIN_LEVEL_NEG_17_25DB],
    .codecCall "setAlcHold" [WM8960_ALC_HOLD_TIME_0MS],
    .serialPrintln "Headphopne Amp Volume set to +0dB",
    .codecCall "setHeadphoneVolumeDB" [0],
    .serialPrintln "Codec setup complete. Listen to left/right INPUT1 on Headphone outputs." ]

/-- Action trace of `setup()` of the ALC sketch, parameterised by the
Boolean handshake outcome returned by `codec.begin()`.  On `false` the
sketch prints a diagnostic and freezes in `while (1);`, modelled by the
terminal `halt` action. -/
def setup (beginOk : Bool) : List Action :=
  [ .serialBegin 115200,
    .serialPrintln "Example 12 - Automatic Level Control",
    .wireBegin,
    .codecBegin ]
  ++ (if beginOk then
        .serialPrintln "Device is connected properly." :: codec_setup
      else
        [ .serialPrintln "The device did not respond. Please check wiring.",
          .halt ])

/-- The 250-step sampling phase of `loop()`: each `for` iteration does
one `analogRead(A0)` (pin A0 recorded as pin 0) followed by `delay(1)`. -/
def readPhase : List Int → List Action
  | [] => []
  | r :: rest => .analogRead 0 r :: .delayMs 1 :: readPhase rest

/-- Action trace of one iteration of `loop()` of the ALC sketch, given
the incoming accumulator value `u` and the 250 raw readings delivered by
`analogRead(A0)` during this iteration. -/
def loop_actions (u : Int) (readings : List Int) : List Action :=
  readPhase readings
  ++ [ .serialPrint "alcTarget: ",
       .serialPrintlnInt (alcTargetOf (loop_iter u readings)),
       .codecCall "setAlcTarget" [alcTargetOf (loop_iter u readings)],
       .delayMs 1000 ]

/-- Recognises a write to one of the six ALC parameter registers named by
the claim: target, attack, decay, hold, and min/max gain. -/
def isAlcParamWrite : Action → Bool
  | .codecCall nm _ =>
      nm = "setAlcTarget" || nm = "setAlcAttack" || nm = "setAlcDecay" ||
      nm = "setAlcHold" || nm = "setAlcMaxGain" || nm = "setAlcMinGain"
  | _ => false

end ALC

namespace Passthrough

/-- `#define bufferLen 64`: the byte count requested from `i2s_read`, and
also the element count of `int16_t sBuffer[bufferLen]`. -/
def bufferLen : Nat := 64

/-- Capacity of `sBuffer` in elements: `int16_t sBuffer[bufferLen]`. -/
def sBufferElems : Nat := bufferLen

/-- Capacity of `sBuffer` in bytes: 64 elements of 2 bytes each. -/
def sBufferBytes : Nat := 2 * sBufferElems

/-- ESP-IDF success code `ESP_OK`. -/
def ESP_OK : Int := 0

/-- ESP-IDF generic failure code `ESP_FAIL`. -/
def ESP_FAIL : Int := -1

/-- Behaviour of the I2S driver during one `loop()` iteration, chosen by
the environment: the `esp_err_t` result of `i2s_read`, the bytes it
deposits at the start of `sBuffer` (their number is the reported
`bytesIn`), and the `esp_err_t` result of `i2s_write`. -/
structure I2SEnv where
  readResult : Int
  dataIn : List Int
  writeResult : Int
  deriving DecidableEq, Repr

/-- Model of `i2s_read(I2S_PORT, &sBuffer, bufferLen, &bytesIn, ...)`:
the driver overwrites the first `bytesIn` bytes of the buffer with the
incoming data and leaves the rest untouched; it reports `bytesIn` and the
result code.  Returns (new buffer, bytesIn, result). -/
def i2s_read_model (buf : List Int) (env : I2SEnv) : List Int × Nat × Int :=
  (env.dataIn ++ buf.drop env.dataIn.length, env.dataIn.length, env.readResult)

/-- One iteration of `loop()` of the passthrough sketch: perform the
`i2s_read` into `sBuffer`, and only when its result equals `ESP_OK`
perform one `i2s_write` of `bytesIn` bytes from the same buffer.  The
`esp_err_t` of the write is bound to `result_w` in the source and never
used.  Returns the buffer after the iteration and the iteration's action
trace. -/
def loop_step (buf : List Int) (env : I2SEnv) : List Int × List Action :=
  let read := i2s_read_model buf env
  if read.2.2 = ESP_OK then
    (read.1, [ .i2sRead 0 bufferLen read.2.1, .i2sWrite 0 read.2.1 ])
  else
    (read.1, [ .i2sRead 0 bufferLen read.2.1 ])

/-- The bytes handed to `i2s_write` during one `loop()` iteration: the
first `bytesIn` bytes of `sBuffer` as it stands after the read, or
nothing when the read did not report `ESP_OK`. -/
def writtenBytes (buf : List Int) (env : I2SEnv) : List Int :=
  if env.readResult = ESP_OK then (loop_step buf env).1.take env.dataIn.length
  else []

/-- Byte indices of `sBuffer` touched during one `loop()` iteration: the
read stores into indices below `bytesIn`, and on `ESP_OK` the write loads
from indices below `bytesIn`. -/
def accessedIndices (env : I2SEnv) : List Nat :=
  List.range env.dataIn.length
  ++ (if env.readResult = ESP_OK then List.range env.dataIn.length else [])

/-- The ordered list of codec configuration calls issued by
`codec_setup()` of the passthrough sketch, in source order. -/
def codec_setup : List Action :=
  [ .codecCall "enableVREF" [],
    .codecCall "enableVMID" [],
    .codecCall "enable_LMIC" [],
    .codecCall "enable_RMIC" [],
    .codecCall "connect_LMN1" [],
    .codecCall "connect_RMN1" [],
    .codecCall "disable_LINMUTE" [],
    .codecCall "disable_RINMUTE" [],
    .codecCall "set_LMICBOOST" [0],
    .codecCall "set_RMICBOOST" [0],
    .codecCall "connect_LMIC2B" [],
    .codecCall "connect_RMIC2B" [],
    .codecCall "enable_AINL" [],
    .codecCall "enable_AINR" [],
    .codecCall "disableLB2LO" [],
    .codecCall "disableRB2RO" [],
    .codecCall "enableLD2LO" [],
    .codecCall "enableRD2RO" [],
    .codecCall "setLB2LOVOL" [0],
    .codecCall "setRB2ROVOL" [0],
    .codecCall "enableLOMIX" [],
    .codecCall "enableROMIX" [],
    .codecCall "enablePLL" [],
    .codecCall "set_PLLPRESCALE" [PLLPRESCALE_DIV_2],
    .codecCall "set_SMD" [PLL_MODE_FRACTIONAL],
    .codecCall "set_CLKSEL" [CLKSEL_PLL],
    .codecCall "set_SYSCLKDIV" [SYSCLK_DIV_BY_2],
    .codecCall "set_BCLKDIV" [4],
    .codecCall "set_DCLKDIV" [DCLKDIV_16],
    .codecCall "set_PLLN" [7],
    .codecCall "set_PLLK" [0x86, 0xC2, 0x26],
    .codecCall "set_WL" [WL_16BIT],
    .codecCall "enablePeripheralMode" [],
    .codecCall "enableAdcLeft" [],
    .codecCall "enableAdcRight" [],
    .codecCall "enableDacLeft" [],
    .codecCall "enableDacRight" [],
    .codecCall "disableDacMute" [],
    .codecCall "disableLoopBack" [],
    .codecCall "disableDacMute" [],
    .codecCall "enableHeadphones" [],
    .codecCall "enableOUT3MIX" [],
    .serialPrintln "Volume set to +0dB",
    .codecCall "setHeadphoneVolume" [120],
    .serialPrintln "Codec Setup complete. Listen to left/right INPUT1 on Headphone outputs." ]

/-- The `i2s_config_t` literal of `i2s_install()`: master mode with RX
and TX, 44100 Hz, 16 bits per sample, right/left channel format, I2S MSB
communication format, 8 DMA buffers of `bufferLen` frames, no APLL. -/
def i2s_config : I2SConfig :=
  ⟨true, true, true, 44100, 16, true, true, 0, 8, bufferLen, false⟩

/-- Action trace of `i2s_install()`. -/
def i2s_install : List Action :=
  [ .i2sInstall i2s_config ]

/-- Action trace of `i2s_setpin()`: BCK 16, WS 25, data out 4, data in 17. -/
def i2s_setpin : List Action :=
  [ .i2sSetPin 16 25 4 17 ]

/-- Action trace of `setup()` of the passthrough sketch, parameterised by
the Boolean handshake outcome returned by `codec.begin()`. -/
def setup (beginOk : Bool) : List Action :=
  [ .serialBegin 115200,
    .serialPrintln "Example 8 - I2S Passthough",
    .wireBegin,
    .codecBegin ]
  ++ (if beginOk then
        (.serialPrintln "Device is connected properly." :: codec_setup)
        ++ i2s_install ++ i2s_setpin ++ [ .i2sStart 0 ]
      else
        [ .serialPrintln "The device did not respond. Please check wiring.",
          .halt ])

end Passthrough

/-- The same I2S driver environment with a different `i2s_write` result
code, all other driver behaviour unchanged. -/
def Passthrough.withWriteResult (env : Passthrough.I2SEnv) (w : Int) :
    Passthrough.I2SEnv :=
  ⟨env.readResult, env.dataIn, w⟩

/-- Recognises a codec configuration call with the given method name. -/
def callNamed (nm : String) : Action → Bool
  | .codecCall n _ => n == nm
  | _ => false

/-- Recognises any codec configuration call (an I2C register write issued
through the driver object). -/
def isCodecConfigCall : Action → Bool
  | .codecCall _ _ => true
  | _ => false

/-- Recognises any I2S-related action. -/
def isI2sAction : Action → Bool
  | .i2sInstall _ => true
  | .i2sSetPin _ _ _ _ => true
  | .i2sStart _ => true
  | .i2sRead _ _ _ => true
  | .i2sWrite _ _ => true
  | _ => false

/-- Recognises an `i2s_write` action. -/
def isI2sWriteAction : Action → Bool
  | .i2sWrite _ _ => true
  | _ => false

/-- Recognises an action that writes I2S driver or codec configuration
state: installing or re-installing the I2S driver, changing its pins, or
any codec register write. -/
def modifiesConfig : Action → Bool
  | .i2sInstall _ => true
  | .i2sSetPin _ _ _ _ => true
  | .codecCall _ _ => true
  | _ => false

/-- Recognises the codec calls of the passthrough sketch that set
clocking or data-format registers. -/
def isClockOrFormatCall (nm : String) : Bool :=
  nm = "enablePLL" || nm = "set_PLLPRESCALE" || nm = "set_SMD" ||
  nm = "set_CLKSEL" || nm = "set_SYSCLKDIV" || nm = "set_BCLKDIV" ||
  nm = "set_DCLKDIV" || nm = "set_PLLN" || nm = "set_PLLK" ||
  nm = "set_WL" || nm = "enablePeripheralMode" || nm = "enableMasterMode"

/-- Configuration state relevant to the I2S data format claim: the
installed I2S driver configuration, the codec word length, whether the
codec is in master mode, and the ordered log of codec clocking and
format register writes. -/
structure ConfigState where
  i2s : Option I2SConfig
  codecWordLength : Option Int
  codecMasterMode : Option Bool
  clockRegs : List (String × List Int)
  deriving DecidableEq, Repr

/-- Configuration state before `setup()` runs. -/
def initialConfig : ConfigState :=
  ⟨none, none, none, []⟩

/-- Effect of one action on the configuration state.  Actions that only
move audio data or print text leave the configuration unchanged. -/
def applyConfig (c : ConfigState) : Action → ConfigState
  | .i2sInstall cfg => ⟨some cfg, c.codecWordLength, c.codecMasterMode, c.clockRegs⟩
  | .codecCall nm args =>
      if nm = "set_WL" then
        ⟨c.i2s, args.headD 0, c.codecMasterMode, c.clockRegs ++ [(nm, args)]⟩
      else if nm = "enablePeripheralMode" then
        ⟨c.i2s, c.codecWordLength, some false, c.clockRegs ++ [(nm, args)]⟩
      else if nm = "enableMasterMode" then
        ⟨c.i2s, c.codecWordLength, some true, c.clockRegs ++ [(nm, args)]⟩
      else if isClockOrFormatCall nm then
        ⟨c.i2s, c.codecWordLength, c.codecMasterMode, c.clockRegs ++ [(nm, args)]⟩
      else c
  | _ => c

/-- Configuration state after `setup()` of the passthrough sketch
completes with a successful handshake. -/
def configAfterSetup : ConfigState :=
  (Passthrough.setup true).foldl applyConfig initialConfig

/-! Helper lemmas. -/

/-- Folding `fun a r => a + r` over a list, as the `userInputA0 +=`
statements do, adds the sum of the list to the initial accumulator. -/
theorem foldl_add_eq (l : List Int) (u : Int) :
    l.foldl (fun a r => a + r) u = u + l.sum := by
  induction l generalizing u with
  | nil => simp
  | cons x xs ih => rw [List.foldl_cons, ih, List.sum_cons]; ring

/-- A list of readings each in 0-4095 has a sum between 0 and
4095 times its length. -/
theorem sum_bounds (rs : List Int) (h : ∀ r ∈ rs, 0 ≤ r ∧ r ≤ 4095) :
    0 ≤ rs.sum ∧ rs.sum ≤ 4095 * rs.length := by
  induction rs with
  | nil => simp
  | cons x xs ih =>
    have hx := h x (by simp)
    have hxs := ih (fun r hr => h r (by simp [hr]))
    rw [List.sum_cons, List.length_cons]
    push_cast
    constructor <;> linarith [hx.1, hx.2, hxs.1, hxs.2]

/-- One iteration of the ALC accumulator stays in 0-4111 when it starts
there and all 250 readings are in the ADC range. -/
theorem loop_iter_bounds (u : Int) (rs : List Int) (h0 : 0 ≤ u)
    (h1 : u ≤ 4111) (hv : ALC.validReadings rs) :
    0 ≤ ALC.loop_iter u rs ∧ ALC.loop_iter u rs ≤ 4111 := by
  obtain ⟨hlen, hr⟩ := hv
  obtain ⟨hs0, hs1⟩ := sum_bounds rs hr
  rw [hlen] at hs1
  unfold ALC.loop_iter
  rw [foldl_add_eq, Int.tdiv_eq_ediv (by omega) (by omega)]
  norm_num at hs1
  omega

/-- Closed form of the value handed to `setAlcTarget`:
`map(u, 0, 4096, 15, 0)` equals `15 - (u * 15).tdiv 4096`. -/
theorem alcTargetOf_eq (u : Int) :
    ALC.alcTargetOf u = 15 - Int.tdiv (u * 15) 4096 := by
  unfold ALC.alcTargetOf arduinoMap
  have h : (u - 0) * ((0 : Int) - 15) = -(u * 15) := by ring
  have h4 : (4096 : Int) - 0 = 4096 := by norm_num
  rw [h, h4, Int.neg_tdiv]
  ring

/-- For an accumulator value in 0-4111 the mapped ALC target lies in the
valid register range 0-15. -/
theorem alcTargetOf_bounds (u : Int) (h0 : 0 ≤ u) (h1 : u ≤ 4111) :
    0 ≤ ALC.alcTargetOf u ∧ ALC.alcTargetOf u ≤ 15 := by
  rw [alcTargetOf_eq,
    Int.tdiv_eq_ediv (mul_nonneg h0 (by norm_num)) (by norm_num)]
  omega

/-- Every accumulator value reached from a start in 0-4111 under valid
readings stays in 0-4111. -/
theorem runStates_bounds (iters : List (List Int)) :
    ∀ u : Int, 0 ≤ u → u ≤ 4111 → (∀ rs ∈ iters, ALC.validReadings rs) →
      ∀ v ∈ ALC.runStates u iters, 0 ≤ v ∧ v ≤ 4111 := by
  induction iters with
  | nil => intro u _ _ _ v hv; simp [ALC.runStates] at hv
  | cons rs rest ih =>
    intro u h0 h1 hvalid v hv
    have hrs := hvalid rs (by simp)
    have hrest : ∀ l ∈ rest, ALC.validReadings l :=
      fun l hl => hvalid l (by simp [hl])
    have hb := loop_iter_bounds u rs h0 h1 hrs
    simp only [ALC.runStates, List.mem_cons] at hv
    rcases hv with rfl | hv
    · exact hb
    · exact ih (ALC.loop_iter u rs) hb.1 hb.2 hrest v hv

/-! Claim theorems. -/

/-- C1 counterexample: the claim that each `loop()` iteration passes to
`codec.setAlcTarget` the mapped arithmetic mean of exactly that
iteration's 250 readings, independent of earlier iterations, fails on
the concrete valid run whose first iteration reads 4095 on all 250
samples and whose second iteration reads 273 on all 250 samples: the
second iteration passes 14, while the mapped mean of its own 250
readings is 15, because the accumulator `userInputA0` is never reset and
carries the previous iteration's value into the new average. -/
theorem C1_counterexample :
    (∀ rs ∈ [List.replicate 250 (4095 : Int), List.replicate 250 (273 : Int)],
        ALC.validReadings rs) ∧
    (ALC.runTargets 0
        [List.replicate 250 (4095 : Int), List.replicate 250 (273 : Int)])[1]? =
      some 14 ∧
    ALC.alcTargetOf (Int.tdiv (List.replicate 250 (273 : Int)).sum 250) = 15 := by
  decide

/-- C1 (amended): each `loop()` iteration folds its 250 readings into the
persistent accumulator `userInputA0` and divides by 250, so only the
first iteration (which starts from accumulator 0) passes the mapped
truncated mean of exactly its own 250 readings to `codec.setAlcTarget`;
every later iteration continues from the carried accumulator value
`rs.sum.tdiv 250` instead of from 0. -/
theorem C1_first_iteration_mean (rs : List Int) (iters : List (List Int)) :
    ALC.runTargets 0 (rs :: iters) =
      ALC.alcTargetOf (Int.tdiv rs.sum 250) ::
        ALC.runTargets (Int.tdiv rs.sum 250) iters := by
  have h : ALC.loop_iter 0 rs = Int.tdiv rs.sum 250 := by
    unfold ALC.loop_iter
    rw [foldl_add_eq]
    norm_num
  unfold ALC.runTargets
  rw [ALC.runStates, h, List.map_cons]

/-- C1 witness: the amended statement at a concrete one-iteration run. -/
theorem C1_witness :
    ALC.runTargets 0 [List.replicate 250 (7 : Int)] =
      ALC.alcTargetOf (Int.tdiv (List.replicate 250 (7 : Int)).sum 250) ::
        ALC.runTargets (Int.tdiv (List.replicate 250 (7 : Int)).sum 250) [] :=
  C1_first_iteration_mean (List.replicate 250 (7 : Int)) []

/-- C6: for every sequence of `loop()` iterations whose `analogRead(A0)`
values are in the ADC range 0-4095, every value computed by
`map(userInputA0, 0, 4096, 15, 0)` and passed to `codec.setAlcTarget`
lies in the inclusive range 0-15, under the exact integer arithmetic of
the Arduino `map`. -/
theorem C6_alc_target_in_range (iters : List (List Int))
    (hv : ∀ rs ∈ iters, ALC.validReadings rs) :
    ∀ t ∈ ALC.runTargets 0 iters, 0 ≤ t ∧ t ≤ 15 := by
  intro t ht
  unfold ALC.runTargets at ht
  rw [List.mem_map] at ht
  obtain ⟨v, hvmem, rfl⟩ := ht
  have hb := runStates_bounds iters 0 (by norm_num) (by norm_num) hv v hvmem
  exact alcTargetOf_bounds v hb.1 hb.2

/-- C6 witness: the range property at a concrete valid run. -/
theorem C6_witness :
    (∀ rs ∈ [List.replicate 250 (2048 : Int)], ALC.validReadings rs) ∧
    ∀ t ∈ ALC.runTargets 0 [List.replicate 250 (2048 : Int)],
      0 ≤ t ∧ t ≤ 15 :=
  ⟨by decide, C6_alc_target_in_range _ (by decide)⟩

/-- C10: starting from the initial global value `userInputA0 = 0` and
never being reset between iterations, under the precondition that every
`analogRead(A0)` value is in 0-4095, the accumulator value at the end of
every complete `loop()` iteration (each computing
`(previous + sum of 250 fresh readings) / 250` with truncating division)
satisfies `0 ≤ userInputA0 ≤ 4111`. -/
theorem C10_accumulator_invariant (iters : List (List Int))
    (hv : ∀ rs ∈ iters, ALC.validReadings rs) :
    ∀ v ∈ ALC.runStates 0 iters, 0 ≤ v ∧ v ≤ 4111 :=
  runStates_bounds iters 0 (by norm_num) (by norm_num) hv

/-- C10 witness: the invariant at a concrete valid two-iteration run. -/
theorem C10_witness :
    (∀ rs ∈ [List.replicate 250 (4095 : Int), List.replicate 250 (1 : Int)],
        ALC.validReadings rs) ∧
    ∀ v ∈ ALC.runStates 0
        [List.replicate 250 (4095 : Int), List.replicate 250 (1 : Int)],
      0 ≤ v ∧ v ≤ 4111 :=
  ⟨by decide, C10_accumulator_invariant _ (by decide)⟩

/-- Sampling-phase actions satisfy no predicate that rejects
`analogRead` and `delay` actions. -/
theorem readPhase_countP (p : Action → Bool)
    (h1 : ∀ pin v, p (.analogRead pin v) = false)
    (h2 : ∀ ms, p (.delayMs ms) = false) :
    ∀ rs : List Int, (ALC.readPhase rs).countP p = 0 := by
  intro rs
  induction rs with
  | nil => simp [ALC.readPhase]
  | cons r rest ih => simp [ALC.readPhase, List.countP_cons, h1, h2, ih]

/-- C2: in both sketches, when `codec.begin()` returns `false` the
`setup()` trace prints the diagnostic line and ends in the permanent
freeze `while (1);` (the terminal `halt` action), `codec.begin()` is
attempted exactly once (no retry), and no codec configuration call and
no I2S setup call ever executes. -/
theorem C2_begin_failure_halts :
    ((ALC.setup false).getLast? = some Action.halt ∧
     (ALC.setup false).countP (fun a => decide (a = Action.codecBegin)) = 1 ∧
     Action.serialPrintln "The device did not respond. Please check wiring."
       ∈ ALC.setup false ∧
     (ALC.setup false).countP isCodecConfigCall = 0 ∧
     (ALC.setup false).countP isI2sAction = 0) ∧
    ((Passthrough.setup false).getLast? = some Action.halt ∧
     (Passthrough.setup false).countP
       (fun a => decide (a = Action.codecBegin)) = 1 ∧
     Action.serialPrintln "The device did not respond. Please check wiring."
       ∈ Passthrough.setup false ∧
     (Passthrough.setup false).countP isCodecConfigCall = 0 ∧
     (Passthrough.setup false).countP isI2sAction = 0) := by
  decide

/-- C5 counterexample: the claim that after `setup()` completes the ALC
sketch never writes an ALC parameter register again fails on any single
`loop()` iteration: with the valid all-zero reading list, the iteration
trace contains exactly one ALC parameter write (`setAlcTarget`). -/
theorem C5_counterexample :
    ALC.validReadings (List.replicate 250 (0 : Int)) ∧
    (ALC.loop_actions 0 (List.replicate 250 (0 : Int))).countP
      ALC.isAlcParamWrite = 1 := by
  decide

/-- C5 (amended): during `codec_setup()` each of the six ALC parameters
(target, attack, decay, hold, min gain, max gain) is written exactly
once; after setup, every `loop()` iteration writes the ALC target
exactly once more via `codec.setAlcTarget`, and none of the other five
ALC parameters is ever written again. -/
theorem C5_alc_parameter_writes (u : Int) (readings : List Int) :
    (ALC.codec_setup.countP (callNamed "setAlcTarget") = 1 ∧
     ALC.codec_setup.countP (callNamed "setAlcAttack") = 1 ∧
     ALC.codec_setup.countP (callNamed "setAlcDecay") = 1 ∧
     ALC.codec_setup.countP (callNamed "setAlcHold") = 1 ∧
     ALC.codec_setup.countP (callNamed "setAlcMaxGain") = 1 ∧
     ALC.codec_setup.countP (callNamed "setAlcMinGain") = 1) ∧
    (ALC.loop_actions u readings).countP (callNamed "setAlcTarget") = 1 ∧
    (ALC.loop_actions u readings).countP
      (fun a => ALC.isAlcParamWrite a && !(callNamed "setAlcTarget" a)) = 0 := by
  refine ⟨by decide, ?_, ?_⟩
  · unfold ALC.loop_actions
    rw [List.countP_append, readPhase_countP _ (fun _ _ => rfl) (fun _ => rfl)]
    simp +decide [List.countP_cons, callNamed]
  · unfold ALC.loop_actions
    rw [List.countP_append, readPhase_countP _ (fun _ _ => rfl) (fun _ => rfl)]
    simp +decide [List.countP_cons, callNamed, ALC.isAlcParamWrite]

/-- C5 witness: the amended write counts at a concrete iteration. -/
theorem C5_witness :
    ((ALC.codec_setup.countP (callNamed "setAlcTarget") = 1 ∧
      ALC.codec_setup.countP (callNamed "setAlcAttack") = 1 ∧
      ALC.codec_setup.countP (callNamed "setAlcDecay") = 1 ∧
      ALC.codec_setup.countP (callNamed "setAlcHold") = 1 ∧
      ALC.codec_setup.countP (callNamed "setAlcMaxGain") = 1 ∧
      ALC.codec_setup.countP (callNamed "setAlcMinGain") = 1) ∧
     (ALC.loop_actions 0 (List.replicate 250 (5 : Int))).countP
       (callNamed "setAlcTarget") = 1 ∧
     (ALC.loop_actions 0 (List.replicate 250 (5 : Int))).countP
       (fun a => ALC.isAlcParamWrite a && !(callNamed "setAlcTarget" a)) = 0) :=
  C5_alc_parameter_writes 0 (List.replicate 250 (5 : Int))

/-- C8: in both sketches, for either handshake outcome, `Wire.begin()`
precedes `codec.begin()` in the `setup()` trace, and every codec
register-configuration call occurs strictly after `codec.begin()` and
only when the handshake succeeded. -/
theorem C8_setup_ordering : ∀ b : Bool,
    ((ALC.setup b).findIdx (fun a => decide (a = Action.wireBegin)) <
       (ALC.setup b).findIdx (fun a => decide (a = Action.codecBegin)) ∧
     ∀ k : Fin (ALC.setup b).length,
       isCodecConfigCall ((ALC.setup b).get k) = true →
         (ALC.setup b).findIdx (fun a => decide (a = Action.codecBegin)) < k.val
         ∧ b = true) ∧
    ((Passthrough.setup b).findIdx (fun a => decide (a = Action.wireBegin)) <
       (Passthrough.setup b).findIdx
         (fun a => decide (a = Action.codecBegin)) ∧
     ∀ k : Fin (Passthrough.setup b).length,
       isCodecConfigCall ((Passthrough.setup b).get k) = true →
         (Passthrough.setup b).findIdx
           (fun a => decide (a = Action.codecBegin)) < k.val
         ∧ b = true) := by
  intro b
  cases b <;> decide

/-- C8 witness: the ordering at the successful handshake outcome. -/
theorem C8_witness :
    ((ALC.setup true).findIdx (fun a => decide (a = Action.wireBegin)) <
       (ALC.setup true).findIdx (fun a => decide (a = Action.codecBegin)) ∧
     ∀ k : Fin (ALC.setup true).length,
       isCodecConfigCall ((ALC.setup true).get k) = true →
         (ALC.setup true).findIdx
           (fun a => decide (a = Action.codecBegin)) < k.val
         ∧ true = true) ∧
    ((Passthrough.setup true).findIdx (fun a => decide (a = Action.wireBegin)) <
       (Passthrough.setup true).findIdx
         (fun a => decide (a = Action.codecBegin)) ∧
     ∀ k : Fin (Passthrough.setup true).length,
       isCodecConfigCall ((Passthrough.setup true).get k) = true →
         (Passthrough.setup true).findIdx
           (fun a => decide (a = Action.codecBegin)) < k.val
         ∧ true = true) :=
  C8_setup_ordering true

/-- Taking exactly the length of the left part of an append returns the
left part. -/
theorem take_len_append {α : Type} (l m : List α) :
    (l ++ m).take l.length = l := by
  induction l with
  | nil => simp
  | cons x xs ih => simp [ih]

/-- C3 counterexample: the claim that the I2S return codes are discarded
without influencing control flow fails for the read: two driver
behaviours identical except for the `i2s_read` result code (`ESP_OK`
versus `ESP_FAIL`) produce different subsequent actions, because the
source guards the `i2s_write` with `if (result == ESP_OK)`. -/
theorem C3_counterexample :
    (Passthrough.loop_step (List.replicate Passthrough.sBufferBytes 0)
        ⟨Passthrough.ESP_OK, [], Passthrough.ESP_OK⟩).2 ≠
    (Passthrough.loop_step (List.replicate Passthrough.sBufferBytes 0)
        ⟨Passthrough.ESP_FAIL, [], Passthrough.ESP_OK⟩).2 := by
  decide

/-- C3 (amended): the `i2s_write` return code (bound to `result_w` in the
source) is discarded without influencing control flow: replacing it by
any other value leaves the iteration unchanged.  The `i2s_read` return
code influences control flow only by gating the single `i2s_write`: when
it is not `ESP_OK` the iteration performs the read and nothing else, with
no retry or error handling. -/
theorem C3_write_result_discarded (buf : List Int)
    (env : Passthrough.I2SEnv) (w : Int) :
    Passthrough.loop_step buf (Passthrough.withWriteResult env w) =
      Passthrough.loop_step buf env ∧
    (env.readResult ≠ Passthrough.ESP_OK →
      (Passthrough.loop_step buf env).2 =
        [Action.i2sRead 0 Passthrough.bufferLen env.dataIn.length]) := by
  constructor
  · rfl
  · intro h
    simp [Passthrough.loop_step, Passthrough.i2s_read_model, h]

/-- C3 witness: the amended statement at a concrete failing read. -/
theorem C3_witness :
    (Passthrough.loop_step (List.replicate 128 (0 : Int))
        (Passthrough.withWriteResult ⟨Passthrough.ESP_FAIL, [], 0⟩ 77) =
      Passthrough.loop_step (List.replicate 128 (0 : Int))
        ⟨Passthrough.ESP_FAIL, [], 0⟩) ∧
    ((Passthrough.I2SEnv.mk Passthrough.ESP_FAIL [] 0).readResult ≠
        Passthrough.ESP_OK →
      (Passthrough.loop_step (List.replicate 128 (0 : Int))
          ⟨Passthrough.ESP_FAIL, [], 0⟩).2 =
        [Action.i2sRead 0 Passthrough.bufferLen
          (Passthrough.I2SEnv.mk Passthrough.ESP_FAIL [] 0).dataIn.length]) :=
  C3_write_result_discarded (List.replicate 128 (0 : Int))
    ⟨Passthrough.ESP_FAIL, [], 0⟩ 77

/-- C4: every `loop()` iteration whose `i2s_read` reports `ESP_OK`
performs exactly one `i2s_write` of exactly the `bytesIn` bytes the read
reported, from the same buffer `sBuffer`, and the bytes handed to the
write are byte-for-byte the bytes the read just deposited, with no
transformation in between. -/
theorem C4_passthrough_byte_for_byte (buf : List Int)
    (env : Passthrough.I2SEnv)
    (hok : env.readResult = Passthrough.ESP_OK) :
    (Passthrough.loop_step buf env).2 =
      [Action.i2sRead 0 Passthrough.bufferLen env.dataIn.length,
       Action.i2sWrite 0 env.dataIn.length] ∧
    ((Passthrough.loop_step buf env).2).countP isI2sWriteAction = 1 ∧
    Passthrough.writtenBytes buf env = env.dataIn := by
  refine ⟨?_, ?_, ?_⟩
  · simp [Passthrough.loop_step, Passthrough.i2s_read_model, hok]
  · simp [Passthrough.loop_step, Passthrough.i2s_read_model, hok,
      List.countP_cons, isI2sWriteAction]
  · simp only [Passthrough.writtenBytes, Passthrough.loop_step,
      Passthrough.i2s_read_model, hok, if_pos]
    simp [take_len_append]

/-- C4 witness: the byte-for-byte passthrough at a concrete read. -/
theorem C4_witness :
    (Passthrough.loop_step (List.replicate 128 (0 : Int))
        ⟨Passthrough.ESP_OK, [11, 22, 33, 44], 0⟩).2 =
      [Action.i2sRead 0 Passthrough.bufferLen
         (Passthrough.I2SEnv.mk Passthrough.ESP_OK [11, 22, 33, 44] 0).dataIn.length,
       Action.i2sWrite 0
         (Passthrough.I2SEnv.mk Passthrough.ESP_OK [11, 22, 33, 44] 0).dataIn.length] ∧
    ((Passthrough.loop_step (List.replicate 128 (0 : Int))
        ⟨Passthrough.ESP_OK, [11, 22, 33, 44], 0⟩).2).countP isI2sWriteAction = 1 ∧
    Passthrough.writtenBytes (List.replicate 128 (0 : Int))
        ⟨Passthrough.ESP_OK, [11, 22, 33, 44], 0⟩ =
      (Passthrough.I2SEnv.mk Passthrough.ESP_OK [11, 22, 33, 44] 0).dataIn :=
  C4_passthrough_byte_for_byte (List.replicate 128 (0 : Int))
    ⟨Passthrough.ESP_OK, [11, 22, 33, 44], 0⟩ rfl

/-- C7: the I2S data format of the passthrough sketch (16 bits per
sample, right/left stereo channel format, 44100 Hz, I2S controller in
master mode with the codec in peripheral mode, codec word length
`WL_16BIT`) is fixed by `i2s_install` and `codec_setup` during a
successful `setup()`, and no action performed by any `loop()` iteration
modifies I2S driver or codec configuration state: the iteration trace
contains no configuration-writing action and leaves every configuration
state fixed. -/
theorem C7_format_fixed_after_setup (buf : List Int)
    (env : Passthrough.I2SEnv) (c : ConfigState) :
    (configAfterSetup.i2s = some Passthrough.i2s_config ∧
     Passthrough.i2s_config.bitsPerSample = 16 ∧
     Passthrough.i2s_config.sampleRate = 44100 ∧
     Passthrough.i2s_config.channelFmtRightLeft = true ∧
     Passthrough.i2s_config.modeMaster = true ∧
     configAfterSetup.codecWordLength = some WL_16BIT ∧
     configAfterSetup.codecMasterMode = some false) ∧
    ((Passthrough.loop_step buf env).2).countP modifiesConfig = 0 ∧
    ((Passthrough.loop_step buf env).2).foldl applyConfig c = c := by
  refine ⟨by decide, ?_, ?_⟩
  · simp only [Passthrough.loop_step, Passthrough.i2s_read_model]
    split <;> simp [List.countP_cons, modifiesConfig]
  · simp only [Passthrough.loop_step, Passthrough.i2s_read_model]
    split <;> simp [applyConfig]

/-- C7 witness: the frame property at a concrete iteration and
configuration state. -/
theorem C7_witness :
    ((configAfterSetup.i2s = some Passthrough.i2s_config ∧
      Passthrough.i2s_config.bitsPerSample = 16 ∧
      Passthrough.i2s_config.sampleRate = 44100 ∧
      Passthrough.i2s_config.channelFmtRightLeft = true ∧
      Passthrough.i2s_config.modeMaster = true ∧
      configAfterSetup.codecWordLength = some WL_16BIT ∧
      configAfterSetup.codecMasterMode = some false) ∧
     ((Passthrough.loop_step (List.replicate 128 (0 : Int))
         ⟨Passthrough.ESP_OK, [5, 6], 0⟩).2).countP modifiesConfig = 0 ∧
     ((Passthrough.loop_step (List.replicate 128 (0 : Int))
         ⟨Passthrough.ESP_OK, [5, 6], 0⟩).2).foldl applyConfig
       configAfterSetup = configAfterSetup) :=
  C7_format_fixed_after_setup (List.replicate 128 (0 : Int))
    ⟨Passthrough.ESP_OK, [5, 6], 0⟩ configAfterSetup

/-- C9: under the ESP-IDF driver contract that `i2s_read` deposits at
most the requested number of bytes, every `loop()` iteration requests
exactly `bufferLen` (64) bytes into `sBuffer` (capacity 64 `int16_t`
elements, 128 bytes), every byte index the read stores to or the write
loads from is strictly below the 128-byte capacity, and at most half of
the capacity is transferred per iteration. -/
theorem C9_buffer_access_in_bounds (env : Passthrough.I2SEnv)
    (buf : List Int)
    (hIn : env.dataIn.length ≤ Passthrough.bufferLen) :
    ((Passthrough.loop_step buf env).2).head? =
      some (Action.i2sRead 0 Passthrough.bufferLen env.dataIn.length) ∧
    (∀ i ∈ Passthrough.accessedIndices env, i < Passthrough.sBufferBytes) ∧
    env.dataIn.length ≤ Passthrough.sBufferBytes / 2 := by
  refine ⟨?_, ?_, ?_⟩
  · simp only [Passthrough.loop_step, Passthrough.i2s_read_model]
    split <;> rfl
  · intro i hi
    simp only [Passthrough.accessedIndices, List.mem_append,
      List.mem_range] at hi
    have hcap : Passthrough.bufferLen ≤ Passthrough.sBufferBytes := by decide
    rcases hi with hi | hi
    · omega
    · rcases Decidable.em (env.readResult = Passthrough.ESP_OK) with h | h
      · rw [if_pos h] at hi
        rw [List.mem_range] at hi
        omega
      · rw [if_neg h] at hi
        simp at hi
  · have : Passthrough.sBufferBytes / 2 = Passthrough.bufferLen := by decide
    omega

/-- C9 witness: the bounds at a concrete read of three bytes. -/
theorem C9_witness :
    (Passthrough.I2SEnv.mk Passthrough.ESP_OK [9, 8, 7] 0).dataIn.length ≤
      Passthrough.bufferLen ∧
    ((Passthrough.loop_step (List.replicate 128 (0 : Int))
        ⟨Passthrough.ESP_OK, [9, 8, 7], 0⟩).2).head? =
      some (Action.i2sRead 0 Passthrough.bufferLen
        (Passthrough.I2SEnv.mk Passthrough.ESP_OK [9, 8, 7] 0).dataIn.length) ∧
    (∀ i ∈ Passthrough.accessedIndices ⟨Passthrough.ESP_OK, [9, 8, 7], 0⟩,
      i < Passthrough.sBufferBytes) ∧
    (Passthrough.I2SEnv.mk Passthrough.ESP_OK [9, 8, 7] 0).dataIn.length ≤
      Passthrough.sBufferBytes / 2 :=
  ⟨by decide,
   C9_buffer_access_in_bounds ⟨Passthrough.ESP_OK, [9, 8, 7], 0⟩
     (List.replicate 128 (0 : Int)) (by decide)⟩

end WM8960Examples
